import Mathlib

/-
Verification development for the work-orchestration core of the repository
(src/src/lightning_app/runners/backends/backend.py).  Python objects are
embedded as Lean structures; an object heap of works is a list indexed by
natural-number references; raising an exception is returning the unchanged
state together with an `Except.error`.
-/

namespace LightningBackend

/-- A queue-fabric channel handle, identified by its key. -/
structure QueueHandle where
  queue_id : String
  work_name : Option String
  role : String
  deriving DecidableEq, Repr, Inhabited

/-- Modelled from the spec: the QueuingSystem (lightning_app.core.queues) is
not under src.  The Queue Fabric section describes named, durable,
point-to-point channels identified by (queue_id, work_name, role), so each
getter deterministically returns the channel handle for its key. -/
structure QueuingSystem where
  fabric : String := ""
  deriving DecidableEq, Repr, Inhabited

def QueuingSystem.get_delta_queue (_ : QueuingSystem) (queue_id : String) : QueueHandle :=
  { queue_id := queue_id, work_name := none, role := "delta" }

def QueuingSystem.get_readiness_queue (_ : QueuingSystem) (queue_id : String) : QueueHandle :=
  { queue_id := queue_id, work_name := none, role := "readiness" }

def QueuingSystem.get_error_queue (_ : QueuingSystem) (queue_id : String) : QueueHandle :=
  { queue_id := queue_id, work_name := none, role := "error" }

def QueuingSystem.get_api_state_publish_queue (_ : QueuingSystem) (queue_id : String) : QueueHandle :=
  { queue_id := queue_id, work_name := none, role := "api-state-publish" }

def QueuingSystem.get_api_delta_queue (_ : QueuingSystem) (queue_id : String) : QueueHandle :=
  { queue_id := queue_id, work_name := none, role := "api-delta" }

def QueuingSystem.get_orchestrator_request_queue (_ : QueuingSystem) (queue_id : String) (work_name : String) : QueueHandle :=
  { queue_id := queue_id, work_name := some work_name, role := "orchestrator-request" }

def QueuingSystem.get_orchestrator_response_queue (_ : QueuingSystem) (queue_id : String) (work_name : String) : QueueHandle :=
  { queue_id := queue_id, work_name := some work_name, role := "orchestrator-response" }

def QueuingSystem.get_orchestrator_copy_request_queue (_ : QueuingSystem) (queue_id : String) (work_name : String) : QueueHandle :=
  { queue_id := queue_id, work_name := some work_name, role := "copy-request" }

def QueuingSystem.get_orchestrator_copy_response_queue (_ : QueuingSystem) (queue_id : String) (work_name : String) : QueueHandle :=
  { queue_id := queue_id, work_name := some work_name, role := "copy-response" }

def QueuingSystem.get_caller_queue (_ : QueuingSystem) (queue_id : String) (work_name : String) : QueueHandle :=
  { queue_id := queue_id, work_name := some work_name, role := "caller" }

/-- A plain Python callable carrying a `__name__` attribute, such as the
original bound `run` entry method of a work. -/
structure Callable where
  name : String
  deriving DecidableEq, Repr, Inhabited

/-- The Backend strategy object: entrypoint file, queuing system, queue id
(src/src/lightning_app/runners/backends/backend.py, Backend.__init__). -/
structure Backend where
  entrypoint_file : String
  queues : QueuingSystem
  queue_id : String
  deriving DecidableEq, Repr, Inhabited

/-- Modelled from the spec: ProxyWorkRun (lightning_app.utilities.proxies) is
not under src.  Its constructor arguments are exactly those supplied at step 4
of `Backend._dynamic_run_wrapper`: the raw entry method, the work name, the
work (a heap reference here), and the caller queue. -/
structure ProxyWorkRun where
  work_run : Callable
  work_name : String
  work : Nat
  caller_queue : QueueHandle
  deriving DecidableEq, Repr, Inhabited

/-- The possible values of a work's `run` attribute: the plain bound method, the
`functools.partial` installed by `Backend._wrap_run_method` (binding the
dynamic run wrapper to a work reference and the unwrapped entry method), or a
`ProxyWorkRun` instance. -/
inductive RunAttr where
  | plain (c : Callable)
  | dynamicWrapper (work : Nat) (work_run : Callable)
  | proxy (p : ProxyWorkRun)
  deriving DecidableEq, Repr, Inhabited

/-- Reading `__name__` from a run attribute.  A plain bound method exposes its
name; a `functools.partial` object has no `__name__` attribute (Python builtin
semantics); ProxyWorkRun is modelled from the spec as a plain class instance,
which likewise defines no `__name__`. -/
def RunAttr.dunderName : RunAttr → Option String
  | .plain c => some c.name
  | .dynamicWrapper _ _ => none
  | .proxy _ => none

/-- Modelled from the spec: `unwrap` (lightning_app.utilities.proxies) is not
under src; it returns the raw entry method underneath any wrapper. -/
def unwrap : RunAttr → Callable
  | .plain c => c
  | .dynamicWrapper _ c => c
  | .proxy p => p.work_run

/-- A LightningWork object: a name (empty until attached to a parent flow), a
class name, the `run` attribute, the `_backend` reference and a status field. -/
structure Work where
  name : String
  className : String
  run : RunAttr
  backendField : Option Backend := none
  status : String := ""
  deriving DecidableEq, Repr, Inhabited

/-- The LightningApp object: the scalar queue attributes and the six per-work
queue registries (Python dicts, embedded as association lists in insertion
order). -/
structure LightningApp where
  delta_queue : Option QueueHandle := none
  readiness_queue : Option QueueHandle := none
  error_queue : Option QueueHandle := none
  api_publish_state_queue : Option QueueHandle := none
  api_delta_queue : Option QueueHandle := none
  request_queues : List (String × QueueHandle) := []
  response_queues : List (String × QueueHandle) := []
  copy_request_queues : List (String × QueueHandle) := []
  copy_response_queues : List (String × QueueHandle) := []
  caller_queues : List (String × QueueHandle) := []
  work_queues : List (String × QueueHandle) := []
  deriving DecidableEq, Repr, Inhabited

/-- The mutable state threaded through the interception path: the app, the heap
of work objects, and a log of `create_work` invocations recording the work
reference and the value of the work's `run` attribute at call time. -/
structure AppState where
  app : LightningApp
  works : List Work
  createWorkLog : List (Nat × RunAttr) := []
  deriving DecidableEq, Repr, Inhabited

/-- Python `dict.update` with a single key: replace the value in place when the
key is present (insertion order kept), append otherwise. -/
def updateEntry (d : List (String × QueueHandle)) (k : String) (v : QueueHandle) :
    List (String × QueueHandle) :=
  match d with
  | [] => [(k, v)]
  | (k0, v0) :: rest => if k0 = k then (k0, v) :: rest else (k0, v0) :: updateEntry rest k v

/-- Python dict lookup. -/
def lookupEntry (d : List (String × QueueHandle)) (k : String) : Option QueueHandle :=
  match d with
  | [] => none
  | (k0, v0) :: rest => if k0 = k then some v0 else lookupEntry rest k

/-- Backend._register_queues (backend.py lines 98 to 104): unconditionally
update each of the five registries with a freshly fetched handle keyed by
(queue_id, work.name). -/
def Backend._register_queues (self : Backend) (app : LightningApp) (work : Work) :
    LightningApp :=
  { app with
    request_queues := updateEntry app.request_queues work.name
      (self.queues.get_orchestrator_request_queue self.queue_id work.name)
    response_queues := updateEntry app.response_queues work.name
      (self.queues.get_orchestrator_response_queue self.queue_id work.name)
    copy_request_queues := updateEntry app.copy_request_queues work.name
      (self.queues.get_orchestrator_copy_request_queue self.queue_id work.name)
    copy_response_queues := updateEntry app.copy_response_queues work.name
      (self.queues.get_orchestrator_copy_response_queue self.queue_id work.name)
    caller_queues := updateEntry app.caller_queues work.name
      (self.queues.get_caller_queue self.queue_id work.name) }

/-- Backend._prepare_queues (backend.py lines 81 to 96), duplicate delta,
readiness and error assignments included exactly as in the source. -/
def Backend._prepare_queues (self : Backend) (app : LightningApp) : LightningApp :=
  let kw := self.queue_id
  let app := { app with delta_queue := some (self.queues.get_delta_queue kw) }
  let app := { app with readiness_queue := some (self.queues.get_readiness_queue kw) }
  let app := { app with error_queue := some (self.queues.get_error_queue kw) }
  let app := { app with delta_queue := some (self.queues.get_delta_queue kw) }
  let app := { app with readiness_queue := some (self.queues.get_readiness_queue kw) }
  let app := { app with error_queue := some (self.queues.get_error_queue kw) }
  let app := { app with api_publish_state_queue := some (self.queues.get_api_state_publish_queue kw) }
  let app := { app with api_delta_queue := some (self.queues.get_api_delta_queue kw) }
  { app with
    request_queues := []
    response_queues := []
    copy_request_queues := []
    copy_response_queues := []
    caller_queues := []
    work_queues := [] }

/-- The spec-side variant of `Backend._prepare_queues` performing a single
assignment per queue role, written from the spec words for the refinement
comparison (claim about the duplicated assignments). -/
def Backend.prepareQueuesSingleAssignment (self : Backend) (app : LightningApp) :
    LightningApp :=
  let kw := self.queue_id
  let app := { app with delta_queue := some (self.queues.get_delta_queue kw) }
  let app := { app with readiness_queue := some (self.queues.get_readiness_queue kw) }
  let app := { app with error_queue := some (self.queues.get_error_queue kw) }
  let app := { app with api_publish_state_queue := some (self.queues.get_api_state_publish_queue kw) }
  let app := { app with api_delta_queue := some (self.queues.get_api_delta_queue kw) }
  { app with
    request_queues := []
    response_queues := []
    copy_request_queues := []
    copy_response_queues := []
    caller_queues := []
    work_queues := [] }

/-- Modelled from the spec: `create_work` is abstract in the source and its
implementations are not under src.  Spec section 4.1: it provisions an
execution context for the work and wires its queue quadruple through the App
registry, mutating only the App queue registries and the work itself.  The
invocation log records the work reference together with the run attribute the
work carries at call time. -/
def Backend.create_work (self : Backend) (s : AppState) (work : Nat) : AppState :=
  let w := s.works.getD work default
  { s with
    app := self._register_queues s.app w
    createWorkLog := s.createWorkLog ++ [(work, w.run)] }

/-- Python errors raised along the interception path.  The source raises
`AttributeError`; `configurationError` is the ConfigurationError class of the
spec error taxonomy, never raised by the embedded source but needed to state
claims about error classes; `keyError` models a Python dict KeyError. -/
inductive PyError where
  | attributeError (msg : String)
  | keyError (key : String)
  | configurationError (msg : String)
  deriving DecidableEq, Repr, Inhabited

/-- Values passed through `*args` and `**kwargs` of the intercepted call. -/
inductive PyVal where
  | vNone
  | vStr (s : String)
  | vInt (n : Int)
  deriving DecidableEq, Repr, Inhabited

/-- Modelled from the spec: the value returned by invoking a ProxyWorkRun
(proxies.py is not under src; the spec says the proxy serializes the call and
resolves it remotely).  The observable recorded here is the proxy together with
the intercepted positional and keyword arguments. -/
inductive RunResult where
  | proxyResult (p : ProxyWorkRun) (args : List PyVal) (kwargs : List (String × PyVal))
  deriving DecidableEq, Repr, Inhabited

/-- The sentence of the unnamed-work error message that names the attachment
requirement. -/
def attachmentInstruction : String :=
  " Make sure to set this work as an attribute of a `LightningFlow` before calling the run method."

/-- The message of the AttributeError raised for an unnamed work
(backend.py lines 48 to 51). -/
def dynamicRunErrorMsg (className : String) : String :=
  "Failed to create process for " ++ className ++
    "." ++ attachmentInstruction

/-- Backend._dynamic_run_wrapper (backend.py lines 38 to 73).  The state is
always returned: the error branch returns the incoming state untouched together
with the raised error. -/
def Backend._dynamic_run_wrapper (self : Backend) (args : List PyVal) (s : AppState)
    (work : Nat) (work_run : Callable) (kwargs : List (String × PyVal)) :
    AppState × Except PyError RunResult :=
  let w := s.works.getD work default
  if w.name = "" then
    (s, Except.error (PyError.attributeError (dynamicRunErrorMsg w.className)))
  else
    let s := { s with app := self._register_queues s.app w }
    let s := { s with works := s.works.set work { w with run := RunAttr.plain work_run } }
    let s := self.create_work s work
    let w2 := { s.works.getD work default with backendField := some self }
    let s := { s with works := s.works.set work w2 }
    match lookupEntry s.app.caller_queues w.name with
    | none => (s, Except.error (PyError.keyError w.name))
    | some cq =>
      let p : ProxyWorkRun :=
        { work_run := work_run, work_name := w.name, work := work, caller_queue := cq }
      let w3 := { s.works.getD work default with run := RunAttr.proxy p }
      let s := { s with works := s.works.set work w3 }
      (s, Except.ok (RunResult.proxyResult p args kwargs))

/-- Backend._wrap_run_method (backend.py lines 75 to 79): read `__name__` from
the current run attribute (raising AttributeError when absent), return
unchanged when it equals the wrapper marker, otherwise install the partial
binding the dynamic run wrapper. -/
def Backend._wrap_run_method (self : Backend) (s : AppState) (work : Nat) :
    AppState × Except PyError Unit :=
  let w := s.works.getD work default
  match w.run.dunderName with
  | Option.none =>
    (s, Except.error (PyError.attributeError "object has no attribute __name__"))
  | Option.some n =>
    if n = "_dynamic_run_wrapper" then
      (s, Except.ok ())
    else
      let w1 := { w with run := RunAttr.dynamicWrapper work (unwrap w.run) }
      ({ s with works := s.works.set work w1 }, Except.ok ())

/-- True when the interception path ended in a ConfigurationError of the spec
error taxonomy. -/
def raisesConfigError : AppState × Except PyError RunResult → Bool
  | (_, Except.error (PyError.configurationError _)) => true
  | _ => false

/-- The ProxyWorkRun built at step 4 of a successful interception for the work
at reference `i`. -/
def proxyFor (self : Backend) (s : AppState) (i : Nat) (work_run : Callable) : ProxyWorkRun :=
  { work_run := work_run
    work_name := (s.works.getD i default).name
    work := i
    caller_queue := self.queues.get_caller_queue self.queue_id (s.works.getD i default).name }

/-! Concrete sample objects used by witnesses and counterexamples. -/

def sampleBackend : Backend :=
  { entrypoint_file := "app.py", queues := {}, queue_id := "q0" }

def trainerWork : Work :=
  { name := "trainer", className := "TrainerWork", run := RunAttr.plain { name := "run" } }

def loaderWork : Work :=
  { name := "loader", className := "LoaderWork", run := RunAttr.plain { name := "run" } }

def unnamedWork : Work :=
  { name := "", className := "TrainerWork", run := RunAttr.plain { name := "run" } }

def sampleState : AppState := { app := {}, works := [trainerWork, loaderWork] }

def unnamedState : AppState := { app := {}, works := [unnamedWork] }

def wrappedState : AppState :=
  { app := {}
    works := [{ trainerWork with run := RunAttr.dynamicWrapper 0 { name := "run" } }] }

/-! Helper lemmas on association lists and list updates. -/

theorem updateEntry_idem (d : List (String × QueueHandle)) (k : String) (v : QueueHandle) :
    updateEntry (updateEntry d k v) k v = updateEntry d k v := by
  induction d with
  | nil => simp [updateEntry]
  | cons hd tl ih =>
    obtain ⟨k0, v0⟩ := hd
    by_cases h : k0 = k
    · simp [updateEntry, h]
    · simp [updateEntry, h, ih]

theorem lookupEntry_updateEntry_self (d : List (String × QueueHandle)) (k : String)
    (v : QueueHandle) : lookupEntry (updateEntry d k v) k = some v := by
  induction d with
  | nil => simp [updateEntry, lookupEntry]
  | cons hd tl ih =>
    obtain ⟨k0, v0⟩ := hd
    by_cases h : k0 = k
    · simp [updateEntry, lookupEntry, h]
    · simp [updateEntry, lookupEntry, h, ih]

theorem getD_set_self {α : Type} [Inhabited α] (l : List α) (i : Nat) (a d : α)
    (h : i < l.length) : (l.set i a).getD i d = a := by
  rw [List.getD_eq_getElem?_getD, List.getElem?_set_self h]
  rfl

/-- Normal form of a successful first interception: the app carries the (twice)
registered queues, the work at `i` carries the proxy and the backend reference,
the create-work log records the raw entry method, and the result is the proxy
invocation on the intercepted arguments. -/
theorem dynamic_run_wrapper_success (self : Backend) (args : List PyVal) (s : AppState)
    (i : Nat) (work_run : Callable) (kwargs : List (String × PyVal))
    (hlen : i < s.works.length) (hname : (s.works.getD i default).name ≠ "") :
    self._dynamic_run_wrapper args s i work_run kwargs =
      (⟨self._register_queues (self._register_queues s.app (s.works.getD i default))
          (s.works.getD i default),
        s.works.set i
          ({ s.works.getD i default with
              run := RunAttr.proxy (proxyFor self s i work_run)
              backendField := some self }),
        s.createWorkLog ++ [(i, RunAttr.plain work_run)]⟩,
       Except.ok (RunResult.proxyResult (proxyFor self s i work_run) args kwargs)) := by
  simp only [Backend._dynamic_run_wrapper]
  rw [if_neg hname]
  simp only [Backend.create_work, Backend._register_queues, List.set_set, getD_set_self,
    List.length_set, hlen, lookupEntry_updateEntry_self, proxyFor]

theorem get?_set_of_ne {α : Type} (l : List α) (i j : Nat) (a : α) (h : j ≠ i) :
    (l.set i a).get? j = l.get? j := by
  rw [List.get?_eq_getElem?, List.get?_eq_getElem?, List.getElem?_set_ne (Ne.symm h)]

theorem name_nonempty_lt (s : AppState) (i : Nat)
    (h : (s.works.getD i default).name ≠ "") : i < s.works.length := by
  by_contra hlt
  push_neg at hlt
  rw [List.getD_eq_getElem?_getD, List.getElem?_eq_none hlt] at h
  exact h rfl

/-! Claim theorems, witnesses and counterexamples. -/

/-- C1 counterexample: at the concrete unnamed work, the dynamically wrapped
run does not raise a ConfigurationError of the spec taxonomy; it raises an
AttributeError. -/
theorem unnamed_run_not_configuration_error :
    raisesConfigError
        (sampleBackend._dynamic_run_wrapper [] unnamedState 0 { name := "run" } []) = false
    ∧ (sampleBackend._dynamic_run_wrapper [] unnamedState 0 { name := "run" } []).2 =
        Except.error (PyError.attributeError (dynamicRunErrorMsg "TrainerWork")) := by
  exact ⟨rfl, rfl⟩

/-- C1 (amended): for every work whose name is empty, the dynamically wrapped
run raises an AttributeError — not the ConfigurationError class of the spec
taxonomy — whose message ends in the sentence stating the missing-name and
attachment requirement, for all args and kwargs. -/
theorem dynamic_run_wrapper_unnamed_raises (self : Backend) (args : List PyVal)
    (s : AppState) (i : Nat) (work_run : Callable) (kwargs : List (String × PyVal))
    (h : (s.works.getD i default).name = "") :
    (self._dynamic_run_wrapper args s i work_run kwargs).2 =
      Except.error (PyError.attributeError
        (dynamicRunErrorMsg (s.works.getD i default).className))
    ∧ ∃ pre, dynamicRunErrorMsg (s.works.getD i default).className =
        pre ++ attachmentInstruction := by
  constructor
  · simp only [Backend._dynamic_run_wrapper]
    rw [if_pos h]
  · exact ⟨"Failed to create process for " ++ (s.works.getD i default).className ++ ".", rfl⟩

theorem dynamic_run_wrapper_unnamed_raises_witness :
    (sampleBackend._dynamic_run_wrapper [] unnamedState 0 { name := "run" } []).2 =
      Except.error (PyError.attributeError
        (dynamicRunErrorMsg (unnamedState.works.getD 0 default).className))
    ∧ ∃ pre, dynamicRunErrorMsg (unnamedState.works.getD 0 default).className =
        pre ++ attachmentInstruction :=
  dynamic_run_wrapper_unnamed_raises sampleBackend [] unnamedState 0 { name := "run" } [] rfl

/-- C2: re-running the registration step of the interception path with the same
work leaves every previously registered queue handle unchanged: with the keyed
queue fabric, registration is idempotent, so the quadruple and the caller queue
are never recreated. -/
theorem register_queues_idempotent (self : Backend) (app : LightningApp) (work : Work) :
    self._register_queues (self._register_queues app work) work =
      self._register_queues app work := by
  simp only [Backend._register_queues, updateEntry_idem]

/-- C3 evaluation at the failing input: the first wrap installs the partial and
succeeds; calling _wrap_run_method a second time raises AttributeError on the
marker check instead of being a no-op. -/
theorem wrap_run_method_second_call_raises :
    (sampleBackend._wrap_run_method sampleState 0).2 = Except.ok ()
    ∧ ((sampleBackend._wrap_run_method sampleState 0).1.works.getD 0 default).run =
        RunAttr.dynamicWrapper 0 { name := "run" }
    ∧ sampleBackend._wrap_run_method (sampleBackend._wrap_run_method sampleState 0).1 0 =
        ((sampleBackend._wrap_run_method sampleState 0).1,
         Except.error (PyError.attributeError "object has no attribute __name__")) := by
  exact ⟨rfl, rfl, rfl⟩

/-- C4: the duplicated delta, readiness and error assignments of
Backend._prepare_queues are observationally equivalent to the single-assignment
variant written from the spec: the final app states coincide for every backend
and every prior app state. -/
theorem prepare_queues_single_assignment_equiv (self : Backend) (app : LightningApp) :
    self._prepare_queues app = self.prepareQueuesSingleAssignment app := rfl

/-- C5: the interception path for the work at reference `i` never mutates any
other work, and leaves every scalar queue attribute of the app unchanged; only
the queue registries and the work itself may change. -/
theorem dynamic_run_wrapper_frame (self : Backend) (args : List PyVal) (s : AppState)
    (i : Nat) (work_run : Callable) (kwargs : List (String × PyVal)) (j : Nat)
    (hj : j ≠ i) :
    (self._dynamic_run_wrapper args s i work_run kwargs).1.works.get? j = s.works.get? j
    ∧ (self._dynamic_run_wrapper args s i work_run kwargs).1.app.delta_queue =
        s.app.delta_queue
    ∧ (self._dynamic_run_wrapper args s i work_run kwargs).1.app.readiness_queue =
        s.app.readiness_queue
    ∧ (self._dynamic_run_wrapper args s i work_run kwargs).1.app.error_queue =
        s.app.error_queue
    ∧ (self._dynamic_run_wrapper args s i work_run kwargs).1.app.api_publish_state_queue =
        s.app.api_publish_state_queue
    ∧ (self._dynamic_run_wrapper args s i work_run kwargs).1.app.api_delta_queue =
        s.app.api_delta_queue := by
  by_cases h : (s.works.getD i default).name = ""
  · simp only [Backend._dynamic_run_wrapper]
    rw [if_pos h]
    exact ⟨rfl, rfl, rfl, rfl, rfl, rfl⟩
  · rw [dynamic_run_wrapper_success self args s i work_run kwargs (name_nonempty_lt s i h) h]
    exact ⟨get?_set_of_ne _ _ _ _ hj, rfl, rfl, rfl, rfl, rfl⟩

theorem dynamic_run_wrapper_frame_witness :
    (sampleBackend._dynamic_run_wrapper [] sampleState 0 { name := "run" } []).1.works.get? 1 =
        sampleState.works.get? 1
    ∧ (sampleBackend._dynamic_run_wrapper [] sampleState 0 { name := "run" } []).1.app.delta_queue =
        sampleState.app.delta_queue
    ∧ (sampleBackend._dynamic_run_wrapper [] sampleState 0 { name := "run" } []).1.app.readiness_queue =
        sampleState.app.readiness_queue
    ∧ (sampleBackend._dynamic_run_wrapper [] sampleState 0 { name := "run" } []).1.app.error_queue =
        sampleState.app.error_queue
    ∧ (sampleBackend._dynamic_run_wrapper [] sampleState 0 { name := "run" } []).1.app.api_publish_state_queue =
        sampleState.app.api_publish_state_queue
    ∧ (sampleBackend._dynamic_run_wrapper [] sampleState 0 { name := "run" } []).1.app.api_delta_queue =
        sampleState.app.api_delta_queue :=
  dynamic_run_wrapper_frame sampleBackend [] sampleState 0 { name := "run" } [] 1 (by decide)

/-- C6: after a successful first interception, the work's run attribute is the
ProxyWorkRun built from the original unwrapped entry method, the work's name,
the work reference and the caller queue registered for the work's name in the
app; the backend is attached; and the returned value is the proxy invoked on
the intercepted args and kwargs. -/
theorem dynamic_run_wrapper_postcondition (self : Backend) (args : List PyVal)
    (s : AppState) (i : Nat) (work_run : Callable) (kwargs : List (String × PyVal))
    (hlen : i < s.works.length) (hname : (s.works.getD i default).name ≠ "") :
    ((self._dynamic_run_wrapper args s i work_run kwargs).1.works.getD i default).run =
        RunAttr.proxy (proxyFor self s i work_run)
    ∧ ((self._dynamic_run_wrapper args s i work_run kwargs).1.works.getD i default).backendField =
        some self
    ∧ (proxyFor self s i work_run).work_run = work_run
    ∧ (proxyFor self s i work_run).work_name = (s.works.getD i default).name
    ∧ (proxyFor self s i work_run).work = i
    ∧ lookupEntry (self._dynamic_run_wrapper args s i work_run kwargs).1.app.caller_queues
        (s.works.getD i default).name = some (proxyFor self s i work_run).caller_queue
    ∧ (self._dynamic_run_wrapper args s i work_run kwargs).2 =
        Except.ok (RunResult.proxyResult (proxyFor self s i work_run) args kwargs) := by
  rw [dynamic_run_wrapper_success self args s i work_run kwargs hlen hname]
  refine ⟨?_, ?_, rfl, rfl, rfl, ?_, rfl⟩
  · rw [getD_set_self _ _ _ _ hlen]
  · rw [getD_set_self _ _ _ _ hlen]
  · simp only [Backend._register_queues, proxyFor, lookupEntry_updateEntry_self]

theorem dynamic_run_wrapper_postcondition_witness :
    ((sampleBackend._dynamic_run_wrapper [] sampleState 0 { name := "run" } []).1.works.getD 0 default).run =
        RunAttr.proxy (proxyFor sampleBackend sampleState 0 { name := "run" })
    ∧ ((sampleBackend._dynamic_run_wrapper [] sampleState 0 { name := "run" } []).1.works.getD 0 default).backendField =
        some sampleBackend
    ∧ (proxyFor sampleBackend sampleState 0 { name := "run" }).work_run = { name := "run" }
    ∧ (proxyFor sampleBackend sampleState 0 { name := "run" }).work_name =
        (sampleState.works.getD 0 default).name
    ∧ (proxyFor sampleBackend sampleState 0 { name := "run" }).work = 0
    ∧ lookupEntry (sampleBackend._dynamic_run_wrapper [] sampleState 0 { name := "run" } []).1.app.caller_queues
        (sampleState.works.getD 0 default).name =
        some (proxyFor sampleBackend sampleState 0 { name := "run" }).caller_queue
    ∧ (sampleBackend._dynamic_run_wrapper [] sampleState 0 { name := "run" } []).2 =
        Except.ok (RunResult.proxyResult (proxyFor sampleBackend sampleState 0 { name := "run" }) [] []) :=
  dynamic_run_wrapper_postcondition sampleBackend [] sampleState 0 { name := "run" } []
    (by decide) (by decide)

/-- C7: for a work with an empty name, the interception path raises without
mutating anything: the returned state is the incoming state — no queue is
registered, run and the backend reference are untouched, and the create-work
log shows create_work was never invoked. -/
theorem dynamic_run_wrapper_unnamed_atomic (self : Backend) (args : List PyVal)
    (s : AppState) (i : Nat) (work_run : Callable) (kwargs : List (String × PyVal))
    (h : (s.works.getD i default).name = "") :
    self._dynamic_run_wrapper args s i work_run kwargs =
      (s, Except.error (PyError.attributeError
        (dynamicRunErrorMsg (s.works.getD i default).className))) := by
  simp only [Backend._dynamic_run_wrapper]
  rw [if_pos h]

theorem dynamic_run_wrapper_unnamed_atomic_witness :
    sampleBackend._dynamic_run_wrapper [] unnamedState 0 { name := "run" } [] =
      (unnamedState, Except.error (PyError.attributeError
        (dynamicRunErrorMsg (unnamedState.works.getD 0 default).className))) :=
  dynamic_run_wrapper_unnamed_atomic sampleBackend [] unnamedState 0 { name := "run" } [] rfl

/-- C8: when the run attribute carries no `__name__` — in particular the
partial installed by a first call to _wrap_run_method — a subsequent call to
_wrap_run_method raises AttributeError on the marker check and leaves the state
unchanged. -/
theorem wrap_run_method_missing_name_attr (self : Backend) (s : AppState) (i : Nat)
    (h : (s.works.getD i default).run.dunderName = Option.none) :
    self._wrap_run_method s i =
      (s, Except.error (PyError.attributeError "object has no attribute __name__")) := by
  simp only [Backend._wrap_run_method, h]

theorem wrap_run_method_missing_name_attr_witness :
    sampleBackend._wrap_run_method wrappedState 0 =
      (wrappedState, Except.error (PyError.attributeError "object has no attribute __name__")) :=
  wrap_run_method_missing_name_attr sampleBackend wrappedState 0 rfl

/-- C9: Backend._prepare_queues resets all six per-work queue registries of the
app to the empty mapping, for every backend and regardless of the app's prior
state. -/
theorem prepare_queues_resets_registries (self : Backend) (app : LightningApp) :
    (self._prepare_queues app).request_queues = []
    ∧ (self._prepare_queues app).response_queues = []
    ∧ (self._prepare_queues app).copy_request_queues = []
    ∧ (self._prepare_queues app).copy_response_queues = []
    ∧ (self._prepare_queues app).caller_queues = []
    ∧ (self._prepare_queues app).work_queues = [] :=
  ⟨rfl, rfl, rfl, rfl, rfl, rfl⟩

/-- C10: the create-work log records that, at the moment create_work was
invoked, the work's run attribute was the raw unwrapped entry method; only
afterwards is the run attribute replaced by the ProxyWorkRun. -/
theorem dynamic_run_wrapper_create_work_sees_raw_run (self : Backend) (args : List PyVal)
    (s : AppState) (i : Nat) (work_run : Callable) (kwargs : List (String × PyVal))
    (hlen : i < s.works.length) (hname : (s.works.getD i default).name ≠ "") :
    (self._dynamic_run_wrapper args s i work_run kwargs).1.createWorkLog =
        s.createWorkLog ++ [(i, RunAttr.plain work_run)]
    ∧ ((self._dynamic_run_wrapper args s i work_run kwargs).1.works.getD i default).run =
        RunAttr.proxy (proxyFor self s i work_run) := by
  rw [dynamic_run_wrapper_success self args s i work_run kwargs hlen hname]
  refine ⟨rfl, ?_⟩
  rw [getD_set_self _ _ _ _ hlen]

theorem dynamic_run_wrapper_create_work_sees_raw_run_witness :
    (sampleBackend._dynamic_run_wrapper [] sampleState 1 { name := "run" } []).1.createWorkLog =
        sampleState.createWorkLog ++ [(1, RunAttr.plain { name := "run" })]
    ∧ ((sampleBackend._dynamic_run_wrapper [] sampleState 1 { name := "run" } []).1.works.getD 1 default).run =
        RunAttr.proxy (proxyFor sampleBackend sampleState 1 { name := "run" }) :=
  dynamic_run_wrapper_create_work_sees_raw_run sampleBackend [] sampleState 1 { name := "run" } []
    (by decide) (by decide)

end LightningBackend
